import Mathlib

/-!
Shallow embedding of `src/drizzle-orm/src/mysql-core/view.ts`: the MySQL view
builders (`ViewBuilderCore`, `ViewBuilder`, `ManualViewBuilder`) and the view
descriptor (`MySqlView`).  Collaborators that live outside this file
(`SelectionProxyHandler`, `QueryBuilder`, `SQL`, `mysqlTable`/`getTableColumns`)
are modelled from the specification, and each such definition says so in its
doc comment.
-/

namespace Drizzle

/-- The `algorithm` option of `ViewBuilderConfig`: one of the string literals
"undefined", "merge", "temptable" in the source. -/
inductive Algorithm
  | undefinedAlgo
  | merge
  | temptable
deriving DecidableEq, Repr

/-- The `sqlSecurity` option of `ViewBuilderConfig`: "definer" or "invoker". -/
inductive SqlSecurity
  | definer
  | invoker
deriving DecidableEq, Repr

/-- The `withCheckOption` option of `ViewBuilderConfig`: "cascaded" or "local". -/
inductive WithCheckOption
  | cascaded
  | localCheck
deriving DecidableEq, Repr

/-- `ViewBuilderConfig` from the source: all four dialect options are optional
(`Option` models the TS optional fields, `none` meaning absent). -/
structure ViewBuilderConfig where
  algorithm : Option Algorithm
  definer : Option String
  sqlSecurity : Option SqlSecurity
  withCheckOption : Option WithCheckOption
deriving DecidableEq, Repr

/-- The initial configuration `protected config: ViewBuilderConfig = {}`:
every field absent. -/
def ViewBuilderConfig.empty : ViewBuilderConfig :=
  { algorithm := none, definer := none, sqlSecurity := none, withCheckOption := none }

/-- The state of `ViewBuilderCore`: the name and schema given to the
constructor, plus the mutable `config` object.  Mutation of `this.config` is
modelled by explicit state passing: each setter returns the updated state
(the source returns `this` after an in-place write). -/
structure ViewBuilderCore where
  name : String
  schema : Option String
  config : ViewBuilderConfig
deriving DecidableEq, Repr

/-- Constructor of `ViewBuilderCore`: stores name and schema and starts with
the empty config. -/
def ViewBuilderCore.make (name : String) (schema : Option String) : ViewBuilderCore :=
  { name := name, schema := schema, config := ViewBuilderConfig.empty }

/-- Setter `algorithm`: `this.config.algorithm = algorithm; return this`. -/
def ViewBuilderCore.algorithm (b : ViewBuilderCore) (a : Algorithm) : ViewBuilderCore :=
  { b with config := { b.config with algorithm := some a } }

/-- Setter `definer`: `this.config.definer = definer; return this`. -/
def ViewBuilderCore.definer (b : ViewBuilderCore) (d : String) : ViewBuilderCore :=
  { b with config := { b.config with definer := some d } }

/-- Setter `sqlSecurity`: `this.config.sqlSecurity = sqlSecurity; return this`. -/
def ViewBuilderCore.sqlSecurity (b : ViewBuilderCore) (s : SqlSecurity) : ViewBuilderCore :=
  { b with config := { b.config with sqlSecurity := some s } }

/-- Setter `withCheckOption`: the argument is optional and
`this.config.withCheckOption = withCheckOption ?? "cascaded"`. -/
def ViewBuilderCore.withCheckOption (b : ViewBuilderCore) (w : Option WithCheckOption) :
    ViewBuilderCore :=
  { b with config := { b.config with withCheckOption := some (w.getD .cascaded) } }

/-- One setter call on a builder, for quantifying over arbitrary sequences of
subsequent operations. -/
inductive BuilderOp
  | algorithm (a : Algorithm)
  | definer (d : String)
  | sqlSecurity (s : SqlSecurity)
  | withCheckOption (w : Option WithCheckOption)
deriving DecidableEq, Repr

/-- Apply one setter call to a builder state. -/
def applyOp (b : ViewBuilderCore) : BuilderOp → ViewBuilderCore
  | .algorithm a => b.algorithm a
  | .definer d => b.definer d
  | .sqlSecurity s => b.sqlSecurity s
  | .withCheckOption w => b.withCheckOption w

/-- Apply a sequence of setter calls, left to right. -/
def applyOps (b : ViewBuilderCore) (ops : List BuilderOp) : ViewBuilderCore :=
  ops.foldl applyOp b

/-- Modelled from the spec: a piece of SQL text is a sequence of chunks, each
either literal text or a bound parameter placeholder (the `SQL` class lives
outside this module; the glossary defines inlining as substituting bound
parameter placeholders with their literal values in the textual form). -/
inductive SQLChunk
  | text (s : String)
  | param (v : String)
deriving DecidableEq, Repr

/-- Modelled from the spec: the `SQL` query-expression object. -/
structure SQL where
  chunks : List SQLChunk
deriving DecidableEq, Repr

/-- Modelled from the spec: `inlineParams` substitutes each bound parameter
placeholder with its literal value. -/
def SQL.inlineParams (q : SQL) : SQL :=
  ⟨q.chunks.map fun c =>
    match c with
    | .param v => .text v
    | .text s => .text s⟩

/-- Modelled from the spec: a selected field is either a realized column (a
named column of a named table), an aliased SQL expression (`SQL.Aliased`,
carrying its field alias), or a raw unaliased SQL expression. -/
inductive ViewField
  | column (table : String) (name : String)
  | aliasedSql (q : SQL) (name : String)
  | rawSql (q : SQL)
deriving DecidableEq, Repr

/-- The options object passed to `new SelectionProxyHandler({...})`: the source
passes string literals for `sqlBehavior` and `sqlAliasedBehavior`.  The source
key `alias` is spelled `viewAlias` here because `alias` is reserved in Lean. -/
structure SelectionProxyConfig where
  viewAlias : String
  sqlBehavior : String
  sqlAliasedBehavior : String
  replaceOriginalName : Bool
deriving DecidableEq, Repr

/-- Error message produced when a raw unaliased expression is accessed under
`sqlBehavior` "error". -/
def rawSqlFieldError : String :=
  "views with raw SQL fields must alias every selected expression"

/-- Modelled from the spec: the aliasing collaborator (`SelectionProxyHandler`,
defined outside this module) resolves one field on access.  A plain raw SQL
expression fails when `sqlBehavior` is "error"; an aliased SQL expression has
the configured alias substituted when `sqlAliasedBehavior` is "alias"; a
realized column resolves under the configured alias when
`replaceOriginalName` is set, so field references resolve to the view name. -/
def resolveField (cfg : SelectionProxyConfig) : ViewField → Except String ViewField
  | .rawSql q =>
      if cfg.sqlBehavior = "error" then .error rawSqlFieldError
      else .ok (.rawSql q)
  | .aliasedSql q n =>
      if cfg.sqlAliasedBehavior = "alias" then .ok (.column cfg.viewAlias n)
      else .ok (.aliasedSql q n)
  | .column t n =>
      if cfg.replaceOriginalName then .ok (.column cfg.viewAlias n)
      else .ok (.column t n)

/-- Modelled from the spec: a query object from the query-building layer,
exposing its selected fields (an order-preserving mapping from field name to
field) and its SQL. -/
structure Query where
  selectedFields : List (String × ViewField)
  sql : SQL
deriving DecidableEq, Repr

/-- Modelled from the spec: `getSelectedFields()` of the query object. -/
def Query.getSelectedFields (q : Query) : List (String × ViewField) :=
  q.selectedFields

/-- Modelled from the spec: `getSQL()` of the query object. -/
def Query.getSQL (q : Query) : SQL :=
  q.sql

/-- Modelled from the spec: the query-builder factory; `new QueryBuilder()`
takes no arguments and carries no state this module reads. -/
structure QueryBuilder where
  mk ::
deriving DecidableEq, Repr

/-- A fresh query-builder instance, as produced by `new QueryBuilder()`. -/
def QueryBuilder.new : QueryBuilder := ⟨⟩

/-- The result of `new Proxy(qb.getSelectedFields(), selectionProxy)`.  A JS
proxy stores its target and its handler; handler traps run only when a
property is accessed, never at proxy construction, so constructing this value
performs no field resolution. -/
structure ProxiedSelection where
  target : List (String × ViewField)
  handler : SelectionProxyConfig
deriving DecidableEq, Repr

/-- Property access on the selection proxy: the get trap resolves the looked
up field through the handler (modelled from the spec for the handler part). -/
def ProxiedSelection.get (p : ProxiedSelection) (k : String) :
    Option (Except String ViewField) :=
  (p.target.lookup k).map (resolveField p.handler)

/-- The `selectedFields` slot of a view config: `ViewBuilder.as` stores the
proxied selection, while `ManualViewBuilder` stores the realized columns
directly (`this.columns`). -/
inductive SelectionSource
  | proxied (p : ProxiedSelection)
  | plain (cols : List (String × ViewField))
deriving DecidableEq, Repr

/-- The keys of the selected fields, in order. -/
def SelectionSource.keys : SelectionSource → List String
  | .proxied p => p.target.map Prod.fst
  | .plain cols => cols.map Prod.fst

/-- The `MySqlView` descriptor.  The source constructor stores
`this[MySqlViewConfig] = mysqlConfig` where the builders pass either
`this.config` — a reference to the builder config object, written here as
`hasConfigRef = true` — or `undefined` (`hasConfigRef = false`).  Because JS
object assignment copies the reference and not the contents, reading the slot
later observes the current contents of the shared config object; see
`MySqlView.observe`. -/
structure MySqlView where
  hasConfigRef : Bool
  name : String
  schema : Option String
  selectedFields : SelectionSource
  query : Option SQL
deriving DecidableEq, Repr

/-- Everything one can read off a `MySqlView` at a given moment.  The
`mysqlConfig` component is the contents of the symbol-keyed slot: when the
view holds a reference to the builder config object, it is the current
contents `cell` of that object; when the slot is `undefined`, it is `none`. -/
structure ObservedDescriptor where
  name : String
  schema : Option String
  selectedFields : SelectionSource
  query : Option SQL
  mysqlConfig : Option ViewBuilderConfig
deriving DecidableEq, Repr

/-- Observe a view descriptor while the shared builder config object currently
holds `cell`. -/
def MySqlView.observe (v : MySqlView) (cell : ViewBuilderConfig) : ObservedDescriptor :=
  { name := v.name, schema := v.schema, selectedFields := v.selectedFields,
    query := v.query,
    mysqlConfig := if v.hasConfigRef then some cell else none }

/-- The value each terminal operation returns:
`new Proxy(new MySqlView({...}), selectionProxy)` — the descriptor wrapped in
the selection proxy, whose traps again run only on access. -/
structure ProxiedView where
  view : MySqlView
  handler : SelectionProxyConfig
deriving DecidableEq, Repr

/-- Modelled from the spec: field access through the returned proxy resolves
the named selected field through the handler (the descriptor field accessors
behave like column access on a base table, resolving under the view name). -/
def ProxiedView.get (pv : ProxiedView) (k : String) : Option (Except String ViewField) :=
  match pv.view.selectedFields with
  | .proxied p => (p.target.lookup k).map (resolveField pv.handler)
  | .plain cols => (cols.lookup k).map (resolveField pv.handler)

/-- The selection-proxy options every terminal operation in this file builds:
alias is the view name, `sqlBehavior` "error", `sqlAliasedBehavior` "alias",
`replaceOriginalName` true. -/
def viewSelectionProxyConfig (name : String) : SelectionProxyConfig :=
  { viewAlias := name, sqlBehavior := "error", sqlAliasedBehavior := "alias",
    replaceOriginalName := true }

/-- The argument of `ViewBuilder.as`: a ready query object or a function from
a query builder to a query. -/
abbrev QueryOrFn : Type := Query ⊕ (QueryBuilder → Query)

/-- `ViewBuilder.as`.  A `ViewBuilder` adds no state to `ViewBuilderCore`, so
the receiver is the core state.  The body follows the source line by line:
resolve a function argument by calling it on `new QueryBuilder()`; build the
selection proxy handler; wrap `qb.getSelectedFields()` in a proxy; construct
the `MySqlView` with `mysqlConfig: this.config` (a live reference) and
`query: qb.getSQL().inlineParams()`; wrap the view in the same proxy. -/
def ViewBuilder.as (b : ViewBuilderCore) (qbArg : QueryOrFn) : ProxiedView :=
  let q : Query :=
    match qbArg with
    | .inl q => q
    | .inr f => f QueryBuilder.new
  let selectionProxy := viewSelectionProxyConfig b.name
  let aliasedSelection : ProxiedSelection :=
    { target := q.getSelectedFields, handler := selectionProxy }
  { view :=
      { hasConfigRef := true, name := b.name, schema := b.schema,
        selectedFields := .proxied aliasedSelection,
        query := some q.getSQL.inlineParams },
    handler := selectionProxy }

/-- `ViewBuilder.as` with the JS exception channel made explicit.  Every step
of the body is non-throwing: the function argument modelled here is total, the
`SelectionProxyHandler` constructor only stores options, `new Proxy` runs no
traps, and `getSelectedFields`, `getSQL().inlineParams()` and the `MySqlView`
constructor are plain data operations.  Hence the result is always `ok`; the
only error path of the module lives in the proxy get trap (`resolveField`). -/
def ViewBuilder.asChecked (b : ViewBuilderCore) (qbArg : QueryOrFn) :
    Except String ProxiedView :=
  .ok (ViewBuilder.as b qbArg)

/-- `ViewBuilder.as` on a function argument, instrumented to record every
query-builder instance the function is applied to.  The body applies the
function to `new QueryBuilder()` exactly once, so the trace is that single
instance. -/
def ViewBuilder.asTraced (b : ViewBuilderCore) (f : QueryBuilder → Query) :
    ProxiedView × List QueryBuilder :=
  let fresh := QueryBuilder.new
  let q := f fresh
  (ViewBuilder.as b (.inl q), [fresh])

/-- Modelled from the spec: the column builders supplied to
`ManualViewBuilder` carry an opaque payload; resolving them happens through
`mysqlTable`/`getTableColumns`, see `getTableColumnsOfMysqlTable`. -/
structure AnyMySqlColumnBuilder where
  dataType : String
deriving DecidableEq, Repr

/-- Modelled from the spec:
`getTableColumns(mysqlTable(name, columns))` — missing from src — realizes
each column builder against a synthetic table named after the view, producing
for each key a concrete column of that table with the same key, preserving
the order of the mapping. -/
def getTableColumnsOfMysqlTable (name : String)
    (columns : List (String × AnyMySqlColumnBuilder)) : List (String × ViewField) :=
  columns.map fun kv => (kv.1, ViewField.column name kv.1)

/-- The state of `ManualViewBuilder`: the inherited core plus the realized
`columns`. -/
structure ManualViewBuilder where
  core : ViewBuilderCore
  columns : List (String × ViewField)
deriving DecidableEq, Repr

/-- Constructor of `ManualViewBuilder`: `super(name, schema)` and
`this.columns = getTableColumns(mysqlTable(name, columns))`. -/
def ManualViewBuilder.make (name : String)
    (columns : List (String × AnyMySqlColumnBuilder)) (schema : Option String) :
    ManualViewBuilder :=
  { core := ViewBuilderCore.make name schema,
    columns := getTableColumnsOfMysqlTable name columns }

/-- Apply a sequence of setter calls to a manual builder; the setters live on
the inherited core and do not touch `columns`. -/
def ManualViewBuilder.applyOps (b : ManualViewBuilder) (ops : List BuilderOp) :
    ManualViewBuilder :=
  { b with core := Drizzle.applyOps b.core ops }

/-- `ManualViewBuilder.existing`: a `MySqlView` with `mysqlConfig: undefined`,
`selectedFields: this.columns`, `query: undefined`, wrapped in the standard
selection proxy. -/
def ManualViewBuilder.existing (b : ManualViewBuilder) : ProxiedView :=
  { view :=
      { hasConfigRef := false, name := b.core.name, schema := b.core.schema,
        selectedFields := .plain b.columns, query := none },
    handler := viewSelectionProxyConfig b.core.name }

/-- `ManualViewBuilder.as`: a `MySqlView` with `mysqlConfig: this.config` (a
live reference), `selectedFields: this.columns`,
`query: query.inlineParams()`, wrapped in the standard selection proxy. -/
def ManualViewBuilder.as (b : ManualViewBuilder) (query : SQL) : ProxiedView :=
  { view :=
      { hasConfigRef := true, name := b.core.name, schema := b.core.schema,
        selectedFields := .plain b.columns, query := some query.inlineParams },
    handler := viewSelectionProxyConfig b.core.name }

/-- A concrete builder `mysqlView("v")` used by counterexamples and witnesses. -/
def sampleBuilder : ViewBuilderCore :=
  ViewBuilderCore.make "v" none

/-- A concrete query whose single selected field is an ordinary column. -/
def sampleQuery : Query :=
  { selectedFields := [("id", .column "t" "id")],
    sql := ⟨[.text "select id from t"]⟩ }

/-- A concrete query whose single selected field is a raw, unaliased SQL
expression. -/
def sampleRawQuery : Query :=
  { selectedFields := [("f", .rawSql ⟨[.text "1 + 1"]⟩)],
    sql := ⟨[.text "select 1 + 1 from t"]⟩ }

/-- C1 counterexample: the claim says that `ViewBuilder.as` on a query whose
selected fields contain a raw, unaliased expression fails at construction
time.  It does not: on the concrete query `sampleRawQuery` the construction
returns the descriptor normally — JS proxy traps do not run at construction,
so no error can be signalled there. -/
theorem c1_counterexample :
    ViewBuilder.asChecked sampleBuilder (Sum.inl sampleRawQuery) =
      Except.ok (ViewBuilder.as sampleBuilder (Sum.inl sampleRawQuery)) := by
  rfl

/-- C1 amended: constructing a query-derived view from a query containing an
unaliased raw expression field succeeds; the failure is signalled lazily, by
the aliasing proxy, when that field is accessed through the view. -/
theorem c1_amended (b : ViewBuilderCore) (q : Query) (k : String) (s : SQL)
    (h : q.selectedFields.lookup k = some (ViewField.rawSql s)) :
    ViewBuilder.asChecked b (Sum.inl q) =
      Except.ok (ViewBuilder.as b (Sum.inl q)) ∧
    ProxiedView.get (ViewBuilder.as b (Sum.inl q)) k =
      some (Except.error rawSqlFieldError) := by
  refine ⟨rfl, ?_⟩
  simp [ViewBuilder.as, ProxiedView.get, viewSelectionProxyConfig,
    Query.getSelectedFields, h, resolveField]

/-- C1 witness: the amended statement at the concrete raw-field query. -/
theorem c1_amended_witness :
    ViewBuilder.asChecked sampleBuilder (Sum.inl sampleRawQuery) =
      Except.ok (ViewBuilder.as sampleBuilder (Sum.inl sampleRawQuery)) ∧
    ProxiedView.get (ViewBuilder.as sampleBuilder (Sum.inl sampleRawQuery)) "f" =
      some (Except.error rawSqlFieldError) :=
  c1_amended sampleBuilder sampleRawQuery "f" ⟨[.text "1 + 1"]⟩ (by rfl)

/-- C2 counterexample: the claim says no subsequent setter call on the builder
changes the descriptor.  On the concrete builder `sampleBuilder`, after
`as(sampleQuery)`, the call `algorithm("merge")` mutates the config object the
descriptor holds a reference to, so the observed descriptor changes. -/
theorem c2_counterexample :
    MySqlView.observe (ViewBuilder.as sampleBuilder (Sum.inl sampleQuery)).view
        (sampleBuilder.algorithm Algorithm.merge).config ≠
      MySqlView.observe (ViewBuilder.as sampleBuilder (Sum.inl sampleQuery)).view
        sampleBuilder.config := by
  decide

/-- C2 amended: the name, schema, selectedFields and query of every descriptor
are unchanged by subsequent setter calls on the builder that produced it, and
descriptors from `existing()` are entirely unaffected; but the dialect
configuration slot of a descriptor produced by `as` holds a live reference to
the builder config object, so its observed contents track every subsequent
setter call. -/
theorem c2_amended (b : ViewBuilderCore) (qbArg : QueryOrFn)
    (mb : ManualViewBuilder) (query : SQL) (ops : List BuilderOp) :
    ((ViewBuilder.as b qbArg).view.observe (applyOps b ops).config).name = b.name ∧
    ((ViewBuilder.as b qbArg).view.observe (applyOps b ops).config).schema = b.schema ∧
    ((ViewBuilder.as b qbArg).view.observe (applyOps b ops).config).selectedFields =
      (ViewBuilder.as b qbArg).view.selectedFields ∧
    ((ViewBuilder.as b qbArg).view.observe (applyOps b ops).config).query =
      (ViewBuilder.as b qbArg).view.query ∧
    ((ViewBuilder.as b qbArg).view.observe (applyOps b ops).config).mysqlConfig =
      some (applyOps b ops).config ∧
    ((ManualViewBuilder.as mb query).view.observe
        (mb.applyOps ops).core.config).mysqlConfig =
      some (mb.applyOps ops).core.config ∧
    (ManualViewBuilder.existing mb).view.observe (mb.applyOps ops).core.config =
      (ManualViewBuilder.existing mb).view.observe mb.core.config :=
  ⟨rfl, rfl, rfl, rfl, rfl, rfl, rfl⟩

/-- C3: for every name, column mapping and schema, `existing()` yields a
descriptor whose backing query is undefined and whose dialect configuration
slot is undefined (whatever the shared config object currently holds). -/
theorem c3_existing_empty (name : String)
    (cols : List (String × AnyMySqlColumnBuilder)) (schema : Option String)
    (cell : ViewBuilderConfig) :
    ((ManualViewBuilder.make name cols schema).existing).view.query = none ∧
    (((ManualViewBuilder.make name cols schema).existing).view.observe
        cell).mysqlConfig = none :=
  ⟨rfl, rfl⟩

/-- C4: for every manually-typed view, the selectedFields of the descriptor
returned by `as(query)` or `existing()` have exactly the keys of the column
mapping supplied to the constructor, in the same order. -/
theorem c4_columns_roundtrip (name : String)
    (cols : List (String × AnyMySqlColumnBuilder)) (schema : Option String)
    (query : SQL) :
    (((ManualViewBuilder.make name cols schema).as query).view.selectedFields).keys =
      cols.map Prod.fst ∧
    (((ManualViewBuilder.make name cols schema).existing).view.selectedFields).keys =
      cols.map Prod.fst := by
  constructor <;>
    simp [ManualViewBuilder.make, ManualViewBuilder.as, ManualViewBuilder.existing,
      SelectionSource.keys, getTableColumnsOfMysqlTable]

/-- C5: a function argument to `ViewBuilder.as` is invoked exactly once, on a
fresh query builder, and reduces to the plain-query case; the descriptor query
is the inlined SQL of the source query and its selectedFields are the source
selected fields wrapped in the aliasing proxy. -/
theorem c5_as_behaviour (b : ViewBuilderCore) (f : QueryBuilder → Query)
    (q : Query) :
    (ViewBuilder.asTraced b f).2 = [QueryBuilder.new] ∧
    (ViewBuilder.asTraced b f).1 = ViewBuilder.as b (Sum.inr f) ∧
    ViewBuilder.as b (Sum.inr f) = ViewBuilder.as b (Sum.inl (f QueryBuilder.new)) ∧
    (ViewBuilder.as b (Sum.inl q)).view.query = some q.getSQL.inlineParams ∧
    (ViewBuilder.as b (Sum.inl q)).view.selectedFields =
      SelectionSource.proxied
        { target := q.getSelectedFields,
          handler := viewSelectionProxyConfig b.name } :=
  ⟨rfl, rfl, rfl, rfl, rfl⟩

/-- C6: every terminal operation configures the selection proxy identically —
alias is the view name, error on unaliased plain SQL, alias substitution on
aliased SQL, original-name replacement on — both on the returned proxy and on
the inner aliased selection of the query-derived case. -/
theorem c6_proxy_options (b : ViewBuilderCore) (qbArg : QueryOrFn)
    (mb : ManualViewBuilder) (query : SQL) (q : Query) :
    (ViewBuilder.as b qbArg).handler =
      { viewAlias := b.name, sqlBehavior := "error", sqlAliasedBehavior := "alias",
        replaceOriginalName := true } ∧
    (ManualViewBuilder.as mb query).handler =
      { viewAlias := mb.core.name, sqlBehavior := "error",
        sqlAliasedBehavior := "alias", replaceOriginalName := true } ∧
    (ManualViewBuilder.existing mb).handler =
      { viewAlias := mb.core.name, sqlBehavior := "error",
        sqlAliasedBehavior := "alias", replaceOriginalName := true } ∧
    (ViewBuilder.as b (Sum.inl q)).view.selectedFields =
      SelectionSource.proxied
        { target := q.getSelectedFields, handler := (ViewBuilder.as b (Sum.inl q)).handler } :=
  ⟨rfl, rfl, rfl, rfl⟩

/-- C7: `withCheckOption()` with no argument stores the same configuration as
`withCheckOption("cascaded")`, and the stored value is "cascaded". -/
theorem c7_withCheckOption_default (b : ViewBuilderCore) :
    b.withCheckOption none = b.withCheckOption (some WithCheckOption.cascaded) ∧
    (b.withCheckOption none).config.withCheckOption =
      some WithCheckOption.cascaded :=
  ⟨rfl, rfl⟩

/-- C8: `algorithm(a).definer(d)` and `definer(d).algorithm(a)` leave the
builder in the same state, so in particular with the same stored
configuration. -/
theorem c8_setters_commute (b : ViewBuilderCore) (a : Algorithm) (d : String) :
    (b.algorithm a).definer d = (b.definer d).algorithm a ∧
    ((b.algorithm a).definer d).config = ((b.definer d).algorithm a).config :=
  ⟨rfl, rfl⟩

/-- C9: `existing()` produces a descriptor whose dialect configuration slot is
undefined even after any sequence of setter calls on the builder: the
accumulated options are discarded. -/
theorem c9_existing_discards_options (mb : ManualViewBuilder)
    (ops : List BuilderOp) :
    ((mb.applyOps ops).existing).view.hasConfigRef = false ∧
    (((mb.applyOps ops).existing).view.observe
        ((mb.applyOps ops).core.config)).mysqlConfig = none :=
  ⟨rfl, rfl⟩

/-- C10: each setter writes only its own configuration field, leaving the
other three unchanged, and a repeated setter is last-write-wins. -/
theorem c10_setter_frame (b : ViewBuilderCore) (a a2 : Algorithm) (d : String)
    (s : SqlSecurity) (w : Option WithCheckOption) :
    ((b.algorithm a).config.algorithm = some a ∧
      (b.algorithm a).config.definer = b.config.definer ∧
      (b.algorithm a).config.sqlSecurity = b.config.sqlSecurity ∧
      (b.algorithm a).config.withCheckOption = b.config.withCheckOption) ∧
    ((b.definer d).config.definer = some d ∧
      (b.definer d).config.algorithm = b.config.algorithm ∧
      (b.definer d).config.sqlSecurity = b.config.sqlSecurity ∧
      (b.definer d).config.withCheckOption = b.config.withCheckOption) ∧
    ((b.sqlSecurity s).config.sqlSecurity = some s ∧
      (b.sqlSecurity s).config.algorithm = b.config.algorithm ∧
      (b.sqlSecurity s).config.definer = b.config.definer ∧
      (b.sqlSecurity s).config.withCheckOption = b.config.withCheckOption) ∧
    ((b.withCheckOption w).config.withCheckOption =
        some (w.getD WithCheckOption.cascaded) ∧
      (b.withCheckOption w).config.algorithm = b.config.algorithm ∧
      (b.withCheckOption w).config.definer = b.config.definer ∧
      (b.withCheckOption w).config.sqlSecurity = b.config.sqlSecurity) ∧
    (((b.algorithm a).algorithm a2).config.algorithm = some a2 ∧
      ((b.algorithm a).algorithm a2).config.definer = b.config.definer ∧
      ((b.algorithm a).algorithm a2).config.sqlSecurity = b.config.sqlSecurity ∧
      ((b.algorithm a).algorithm a2).config.withCheckOption =
        b.config.withCheckOption) :=
  ⟨⟨rfl, rfl, rfl, rfl⟩, ⟨rfl, rfl, rfl, rfl⟩, ⟨rfl, rfl, rfl, rfl⟩,
    ⟨rfl, rfl, rfl, rfl⟩, ⟨rfl, rfl, rfl, rfl⟩⟩

end Drizzle
